import Mathlib

/-!
Verification of the storage engine of `server.py` (class `KVStore`): a
key-value store with a write-ahead log (WAL), an on-disk JSON snapshot, an
inverted word index and an embedding table.

Python dicts are modelled as insertion-ordered association lists (Python
dicts preserve insertion order, and `search_similar` iterates the embedding
dict in that order, so the order is observable).  Python sets are modelled
as `Finset String`.  Embedding vectors are modelled over `ℚ`; the embedding
function `_generate_embedding` itself uses Python's per-process salted
`hash` and floating-point normalisation, so it is kept as an abstract
parameter `E : String → List ℚ` — no claim below depends on the numeric
values it produces, only on how the engine stores and compares them.
-/

namespace KV

variable {α : Type}

/-- One binding list standing for a Python dict: keys unique, insertion
ordered. -/
abbrev Dict (α : Type) := List (String × α)

/-- Python `d[k]` / `d.get(k)`: the value bound to `k`, if any. -/
def dlookup (k : String) : Dict α → Option α
  | [] => none
  | (k2, v2) :: t => if k2 = k then some v2 else dlookup k t

/-- Python `d[k] = v`: update in place (keeping the key's position) when `k`
is present, append at the end when it is new. -/
def dinsert (k : String) (v : α) : Dict α → Dict α
  | [] => [(k, v)]
  | (k2, v2) :: t => if k2 = k then (k, v) :: t else (k2, v2) :: dinsert k v t

/-- Python `d.pop(k, None)` / `del d[k]`: drop the binding of `k`, if any. -/
def dremove (k : String) : Dict α → Dict α
  | [] => []
  | (k2, v2) :: t => if k2 = k then t else (k2, v2) :: dremove k t

/-- Python `d.update(other)`: `d[k] = v` for each pair of `other` in order,
so `other`'s entries override `d`'s on common keys. -/
def dupdate (d other : Dict α) : Dict α :=
  other.foldl (fun d p => dinsert p.1 p.2 d) d

/-- One parsed WAL record (`server.py` lines 67-94): the `timestamp` field is
informational and never read by replay, so it is omitted. -/
inductive WalRecord
  | set (key value : String)
  | del (key : String)
  | bulk (ops : List (String × String))
deriving DecidableEq

/-- The replay loop body for a `bulk_set` record (`server.py` lines 112-114):
assign every pair in order. -/
def applyPairs (m : Dict String) (ops : List (String × String)) : Dict String :=
  ops.foldl (fun m p => dinsert p.1 p.2 m) m

/-- One iteration of the replay loop in `_recover_from_wal`
(`server.py` lines 108-114). -/
def applyRecord (m : Dict String) : WalRecord → Dict String
  | .set k v => dinsert k v m
  | .del k => dremove k m
  | .bulk ops => applyPairs m ops

/-- Replay a list of parsed records in order into a map. -/
def replayRecords (m : Dict String) (w : List WalRecord) : Dict String :=
  w.foldl applyRecord m

/-- One physical line of `wal.log` as the recovery loop classifies it:
blank (skipped), a line that parses to a record, or a line on which
`json.loads` (or the field access) raises. -/
inductive WalLine
  | good (r : WalRecord)
  | blank
  | malformed
deriving DecidableEq

/-- One iteration of the loop in `_recover_from_wal` (`server.py`
lines 103-114): blank lines are skipped, a malformed line raises. -/
def replayLine (m : Dict String) : WalLine → Except Unit (Dict String)
  | .blank => .ok m
  | .malformed => .error ()
  | .good r => .ok (applyRecord m r)

/-- `KVStore._recover_from_wal` (`server.py` lines 96-114): scan the WAL
line by line into the (initially empty) map; any malformed line raises out
of the constructor. -/
def recover_from_wal (lines : List WalLine) : Except Unit (Dict String) :=
  lines.foldlM replayLine []

/-- `KVStore._load_data` (`server.py` lines 116-121): if `data.json` exists,
`self._data.update(json.load(f))` — the snapshot's entries override the
current map on common keys. -/
def load_data (m : Dict String) (snapshot : Option (Dict String)) : Dict String :=
  match snapshot with
  | none => m
  | some snap => dupdate m snap

/-- The recovery part of `KVStore.__init__` (`server.py` lines 50-52) as it
acts on `self._data`: `_recover_from_wal()` runs first, `_load_data()` runs
second. -/
def openData (snapshot : Option (Dict String)) (lines : List WalLine) :
    Except Unit (Dict String) := do
  let m ← recover_from_wal lines
  pure (load_data m snapshot)

/-- The in-memory and on-disk state of one `KVStore` instance.  `wal` and
`snapshot` stand for the parsed contents of `wal.log` and `data.json`
(`snapshot = none` meaning the file does not exist). -/
structure Store where
  data : Dict String
  invIndex : Dict (Finset String)
  embeddings : Dict (List ℚ)
  wal : List WalRecord
  snapshot : Option (Dict String)
  debugMode : Bool
deriving DecidableEq

/-- The records carried by a list of WAL lines, for the `wal` field of a
freshly opened store. -/
def lineRecords (lines : List WalLine) : List WalRecord :=
  lines.filterMap (fun l => match l with | .good r => some r | _ => none)

/-- `KVStore.__init__` (`server.py` lines 33-52): recover `self._data` from
the WAL, then load the snapshot over it; both secondary indexes are left as
they were initialised — empty — and nothing is written to disk. -/
def openStore (debug : Bool) (snapshot : Option (Dict String))
    (lines : List WalLine) : Except Unit Store := do
  let m ← openData snapshot lines
  pure { data := m, invIndex := [], embeddings := [], wal := lineRecords lines,
         snapshot := snapshot, debugMode := debug }

/-- A store opened on an empty data directory. -/
def freshStore (debug : Bool) : Store :=
  { data := [], invIndex := [], embeddings := [], wal := [], snapshot := none,
    debugMode := debug }

/-- `KVStore._save_data` (`server.py` lines 123-136): in debug mode the
whole snapshot write is skipped when the random draw falls below 0.01 —
`skip` is that draw's outcome; otherwise the current map replaces the
snapshot atomically. -/
def save_data (skip : Bool) (s : Store) : Store :=
  if s.debugMode && skip then s else { s with snapshot := some s.data }

/-- `KVStore._clear_wal` (`server.py` lines 138-142): remove `wal.log`. -/
def clear_wal (s : Store) : Store := { s with wal := [] }

/-- `KVStore.checkpoint` (`server.py` lines 257-261): `_save_data()` then
`_clear_wal()`, unconditionally. -/
def checkpoint (skip : Bool) (s : Store) : Store := clear_wal (save_data skip s)

/-- Python `value.lower().split()`: lowercase, split on whitespace runs,
discard empty tokens. -/
def tokenize (s : String) : List String :=
  (s.toLower.split Char.isWhitespace).filter (fun t => t ≠ "")

/-- `KVStore._update_inverted_index` (`server.py` lines 144-155): discard
`k` from every posting set, then add `k` to the posting set of every token
of `v` (creating it when absent). -/
def update_inverted_index (k v : String) (idx : Dict (Finset String)) :
    Dict (Finset String) :=
  let idx1 := idx.map (fun p => (p.1, p.2.erase k))
  (tokenize v).foldl
    (fun i w => dinsert w (insert k ((dlookup w i).getD ∅)) i) idx1

/-- `KVStore.set` (`server.py` lines 180-188): WAL append, primary-map
write, index updates, snapshot save; returns `True`.  `E` abstracts
`_generate_embedding`, `skip` the debug-mode random draw inside
`_save_data`. -/
def set (E : String → List ℚ) (skip : Bool) (k v : String) (s : Store) :
    Bool × Store :=
  let s1 := { s with wal := s.wal ++ [WalRecord.set k v] }
  let s2 := { s1 with data := dinsert k v s1.data }
  let s3 := { s2 with invIndex := update_inverted_index k v s2.invIndex }
  let s4 := { s3 with embeddings := dinsert k (E v) s3.embeddings }
  (true, save_data skip s4)

/-- `KVStore.get` (`server.py` lines 190-193): `self._data.get(key)`. -/
def get (k : String) (s : Store) : Option String × Store :=
  (dlookup k s.data, s)

/-- `KVStore.delete` (`server.py` lines 195-210): absent key returns
`False` at once; otherwise WAL append, map removal, index cleanup,
snapshot save, `True`. -/
def delete (skip : Bool) (k : String) (s : Store) : Bool × Store :=
  if (dlookup k s.data).isSome then
    let s1 := { s with wal := s.wal ++ [WalRecord.del k] }
    let s2 := { s1 with data := dremove k s1.data }
    let s3 := { s2 with invIndex := s2.invIndex.map (fun p : String × Finset String => (p.1, p.2.erase k)) }
    let s4 := { s3 with embeddings := dremove k s3.embeddings }
    (true, save_data skip s4)
  else
    (false, s)

/-- `KVStore.bulk_set` (`server.py` lines 212-225): one WAL record carrying
all the pairs, then every pair applied in order, then one snapshot save. -/
def bulk_set (E : String → List ℚ) (skip : Bool)
    (items : List (String × String)) (s : Store) : Bool × Store :=
  let s1 := { s with wal := s.wal ++ [WalRecord.bulk items] }
  let s2 := items.foldl
    (fun s p =>
      { s with data := dinsert p.1 p.2 s.data,
               invIndex := update_inverted_index p.1 p.2 s.invIndex,
               embeddings := dinsert p.1 (E p.2) s.embeddings }) s1
  (true, save_data skip s2)

/-- `KVStore.search_text` (`server.py` lines 227-241): tokenize the query;
empty token list returns empty; otherwise intersect the posting sets of all
tokens (absent token contributing the empty set). -/
def search_text (q : String) (s : Store) : Finset String × Store :=
  match tokenize q with
  | [] => (∅, s)
  | w :: ws =>
    (ws.foldl (fun acc w2 => acc ∩ (dlookup w2 s.invIndex).getD ∅)
      ((dlookup w s.invIndex).getD ∅), s)

/-- Python's `list.sort(key=..., reverse=True)` insertion step: a stable
descending insert — the inserted element goes before the first element
whose score is not larger, so earlier elements win ties. -/
def insertDesc (a : String × ℚ) : List (String × ℚ) → List (String × ℚ)
  | [] => [a]
  | b :: l => if b.2 ≤ a.2 then a :: b :: l else b :: insertDesc a l

/-- Stable descending sort by score, matching Python's stable
`sort(key=lambda x: x[1], reverse=True)`. -/
def sortDesc : List (String × ℚ) → List (String × ℚ)
  | [] => []
  | a :: l => insertDesc a (sortDesc l)

/-- Python slicing `l[:n]` for an `int` `n`: a nonnegative `n` keeps the
first `n` elements, a negative `n` drops the last `min(-n, len(l))`. -/
def pyTake (n : Int) (l : List α) : List α :=
  if 0 ≤ n then l.take n.toNat else l.take (l.length - (-n).toNat)

/-- `KVStore._cosine_similarity` (`server.py` lines 176-178): plain dot
product (`zip` truncates to the shorter vector). -/
def cosine_similarity (v1 v2 : List ℚ) : ℚ :=
  (List.zipWith (fun a b => a * b) v1 v2).sum

/-- The similarity list built by `search_similar` (`server.py` lines
248-251): one `(key, score)` pair per embedding-table entry, in the
table's insertion order. -/
def simList (E : String → List ℚ) (q : String) (s : Store) :
    List (String × ℚ) :=
  s.embeddings.map (fun p => (p.1, cosine_similarity (E q) p.2))

/-- `KVStore.search_similar` (`server.py` lines 243-255): score every
stored embedding against the query embedding, stable-sort descending by
score, slice to `top_k`. -/
def search_similar (E : String → List ℚ) (q : String) (top_k : Int)
    (s : Store) : List (String × ℚ) × Store :=
  (pyTake top_k (sortDesc (simList E q s)), s)

/-- `KVStore.get_all_keys` (`server.py` lines 263-266):
`list(self._data.keys())`. -/
def get_all_keys (s : Store) : List String × Store :=
  (s.data.map (fun p => p.1), s)

/-! Basic lemmas about the dict model. -/

/-- Looking a key up after a Python-dict assignment. -/
theorem dlookup_dinsert (k k2 : String) (v : α) (d : Dict α) :
    dlookup k2 (dinsert k v d) = if k = k2 then some v else dlookup k2 d := by
  induction d with
  | nil => simp [dinsert, dlookup]
  | cons p t ih =>
    obtain ⟨k3, v3⟩ := p
    by_cases h : k3 = k
    · subst h
      by_cases h2 : k3 = k2 <;> simp [dinsert, dlookup, h2]
    · by_cases h2 : k3 = k2
      · subst h2
        have hk : ¬ k = k3 := fun e => h e.symm
        simp [dinsert, dlookup, h, hk]
      · simp [dinsert, dlookup, h, h2, ih]

/-! ## Claim theorems -/

/-- C1: the claim states that recovery loads `data.json` first and replays
`wal.log` second, so that for a key present in both the WAL record's effect
is the one visible after recovery.  `KVStore.__init__` (`server.py` lines
50-52) does the opposite: `_recover_from_wal()` runs first and `_load_data()`
then `update`s the snapshot's entries over the replayed map.  Evaluated at
snapshot `{"a": "1"}` and WAL `[Delete "a"]`: the delete is replayed and then
undone by the snapshot load, so `"a"` is bound to `"1"` after open, where the
claim requires it to be absent. -/
theorem c1_code_loads_snapshot_over_wal :
    openData (some [("a", "1")]) [WalLine.good (WalRecord.del "a")] =
      Except.ok [("a", "1")] ∧
    dlookup "a" [("a", "1")] = some "1" :=
  ⟨rfl, rfl⟩

/-- C3: the claim states that the WAL is never truncated before the current
map has been snapshotted, and that the debug-mode snapshot skip has no
effect on durability of acknowledged operations.  In the code,
`KVStore.checkpoint` (`server.py` lines 257-261) calls `_clear_wal()`
unconditionally after `_save_data()`, and in debug mode `_save_data`
(lines 123-136) may skip the snapshot entirely.  Concretely: on a fresh
debug-mode store, `set("a", "1")` is acknowledged (returns `True`, its WAL
record durable) while its snapshot save is skipped; a subsequent
`checkpoint()` whose save is also skipped deletes the WAL while no snapshot
exists, and recovery from the resulting disk state yields the empty map —
the acknowledged write is lost. -/
theorem c3_checkpoint_clears_wal_after_skipped_snapshot :
    (KV.set (fun _ => []) true "a" "1" (freshStore true)).1 = true ∧
    (KV.set (fun _ => []) true "a" "1" (freshStore true)).2.wal =
      [WalRecord.set "a" "1"] ∧
    (KV.set (fun _ => []) true "a" "1" (freshStore true)).2.snapshot = none ∧
    (checkpoint true (KV.set (fun _ => []) true "a" "1" (freshStore true)).2).wal
      = [] ∧
    (checkpoint true (KV.set (fun _ => []) true "a" "1" (freshStore true)).2).snapshot
      = none ∧
    openData none [] = Except.ok [] :=
  ⟨rfl, rfl, rfl, rfl, rfl, rfl⟩

/-- C4: the claim states that after open with pre-existing on-disk state the
secondary indexes agree with the PrimaryMap (recovery rebuilds them).
`KVStore.__init__` (`server.py` lines 33-52) initialises
`_inverted_index` and `_embeddings` to empty and the recovery path
(`_recover_from_wal`, `_load_data`) only ever touches `_data`, so after
opening a directory whose snapshot holds `{"a": "hello"}` the PrimaryMap
contains `"a"` while both indexes are empty — the EmbeddingTable's keyset
differs from the PrimaryMap's and `"a"` is in no posting list. -/
theorem c4_open_never_rebuilds_indexes :
    ∃ st : Store,
      openStore false (some [("a", "hello")]) [] = Except.ok st ∧
      dlookup "a" st.data = some "hello" ∧
      st.embeddings = [] ∧ st.invIndex = [] := by
  refine ⟨{ data := [("a", "hello")], invIndex := [], embeddings := [],
            wal := [], snapshot := some [("a", "hello")], debugMode := false },
          rfl, rfl, rfl, rfl⟩

/-- C5: the claim states that a WAL whose last line is malformed is
tolerated: open succeeds, replay stops at the malformed line and keeps the
earlier records.  `KVStore._recover_from_wal` (`server.py` lines 96-114)
calls `json.loads(line)` with no exception handling, so the malformed line
raises out of `__init__` and open fails.  Evaluated at a WAL holding one
well-formed `Set("a", "1")` record followed by a truncated line: recovery
(and hence open) raises instead of succeeding with `"a" ↦ "1"`. -/
theorem c5_malformed_trailing_line_fails_open :
    recover_from_wal [WalLine.good (WalRecord.set "a" "1"), WalLine.malformed]
      = Except.error () ∧
    openStore false none [WalLine.good (WalRecord.set "a" "1"), WalLine.malformed]
      = Except.error () :=
  ⟨rfl, rfl⟩

/-- C6: `delete(k)` returns `True` exactly when `k` was present in the
PrimaryMap before the call, and when `k` is absent it is a complete no-op:
the returned state is the input state, so the PrimaryMap, both indexes, the
WAL and the snapshot file are all unchanged and no WAL record is appended
(`KVStore.delete`, `server.py` lines 195-210). -/
theorem c6_delete_presence_and_absent_noop (skip : Bool) (k : String) (s : Store) :
    ((delete skip k s).1 = true ↔ (dlookup k s.data).isSome = true) ∧
    (dlookup k s.data = none → delete skip k s = (false, s)) := by
  constructor
  · cases h : (dlookup k s.data).isSome <;> simp [KV.delete, h]
  · intro h
    simp [KV.delete, h]

/-- C6 witness: deleting the absent key `"x"` from a fresh store returns
`False` and leaves the store untouched. -/
theorem c6_delete_witness :
    delete false "x" (freshStore false) = (false, freshStore false) :=
  (c6_delete_presence_and_absent_noop false "x" (freshStore false)).2 (by decide)

/-- C10: the read operations `get`, `search_text`, `search_similar` and
`get_all_keys` (`server.py` lines 190-193, 227-241, 243-255, 263-266)
perform no assignment to any engine field and no file write: the state they
return is the input state, so the PrimaryMap, the InvertedIndex, the
EmbeddingTable, the WAL and the snapshot are all unchanged. -/
theorem c10_reads_leave_state_unchanged (E : String → List ℚ)
    (k q : String) (n : Int) (s : Store) :
    (get k s).2 = s ∧ (search_text q s).2 = s ∧
    (search_similar E q n s).2 = s ∧ (get_all_keys s).2 = s := by
  refine ⟨rfl, ?_, rfl, rfl⟩
  unfold search_text
  cases tokenize q <;> rfl


theorem wal_bulk_apply_foldl (E : String → List ℚ)
    (items : List (String × String)) (s : Store) :
    (items.foldl
      (fun s p =>
        { s with data := dinsert p.1 p.2 s.data,
                 invIndex := update_inverted_index p.1 p.2 s.invIndex,
                 embeddings := dinsert p.1 (E p.2) s.embeddings }) s).wal = s.wal := by
  induction items generalizing s with
  | nil => rfl
  | cons a t ih => exact ih _

theorem save_data_wal (skip : Bool) (s : Store) : (save_data skip s).wal = s.wal := by
  unfold save_data
  split <;> rfl

theorem dlookup_applyPairs (m : Dict String) (items : List (String × String)) (k : String) :
    dlookup k (applyPairs m items) =
      (match items.reverse.find? (fun p => p.1 == k) with
       | some p => some p.2
       | none => dlookup k m) := by
  induction items generalizing m with
  | nil => simp [applyPairs]
  | cons a t ih =>
    rw [show applyPairs m (a :: t) = applyPairs (dinsert a.1 a.2 m) t from rfl]
    rw [ih]
    rw [List.reverse_cons, List.find?_append]
    cases h : t.reverse.find? (fun p => p.1 == k) with
    | some p => simp [h]
    | none =>
      by_cases hk : a.1 = k
      · have hb : (a.1 == k) = true := by simp [hk]
        simp [h, List.find?_cons, hb, hk, dlookup_dinsert]
      · have hb : (a.1 == k) = false := by simp [hk]
        simp [h, List.find?_cons, hb, hk, dlookup_dinsert]

theorem save_data_data (skip : Bool) (s : Store) : (save_data skip s).data = s.data := by
  unfold save_data
  split <;> rfl

theorem mem_insertDesc (a x : String × ℚ) (l : List (String × ℚ)) :
    x ∈ insertDesc a l ↔ x = a ∨ x ∈ l := by
  induction l with
  | nil => simp [insertDesc]
  | cons b t ih =>
    unfold insertDesc
    split
    · simp [List.mem_cons]
    · simp only [List.mem_cons, ih]
      tauto

theorem length_insertDesc (a : String × ℚ) (l : List (String × ℚ)) :
    (insertDesc a l).length = l.length + 1 := by
  induction l with
  | nil => rfl
  | cons b t ih =>
    unfold insertDesc
    split <;> simp [ih]

theorem length_sortDesc (l : List (String × ℚ)) :
    (sortDesc l).length = l.length := by
  induction l with
  | nil => rfl
  | cons a t ih => simp [sortDesc, length_insertDesc, ih]

theorem pairwise_insertDesc (a : String × ℚ) (l : List (String × ℚ))
    (h : l.Pairwise (fun x y => y.2 ≤ x.2)) :
    (insertDesc a l).Pairwise (fun x y => y.2 ≤ x.2) := by
  induction l with
  | nil => simp [insertDesc]
  | cons b t ih =>
    rw [List.pairwise_cons] at h
    unfold insertDesc
    split
    · rename_i hba
      refine List.Pairwise.cons ?_ (List.Pairwise.cons h.1 h.2)
      intro x hx
      rcases List.mem_cons.mp hx with rfl | hx
      · exact hba
      · exact le_trans (h.1 x hx) hba
    · rename_i hba
      push_neg at hba
      refine List.Pairwise.cons ?_ (ih h.2)
      intro x hx
      rcases (mem_insertDesc a x t).mp hx with rfl | hx
      · exact le_of_lt hba
      · exact h.1 x hx

theorem pairwise_sortDesc (l : List (String × ℚ)) :
    (sortDesc l).Pairwise (fun x y => y.2 ≤ x.2) := by
  induction l with
  | nil => simp [sortDesc]
  | cons a t ih => exact pairwise_insertDesc a _ ih

theorem filter_insertDesc (a : String × ℚ) (l : List (String × ℚ)) (c : ℚ) :
    (insertDesc a l).filter (fun p => decide (p.2 = c)) =
      if a.2 = c then a :: l.filter (fun p => decide (p.2 = c))
      else l.filter (fun p => decide (p.2 = c)) := by
  induction l with
  | nil => by_cases hc : a.2 = c <;> simp [insertDesc, hc]
  | cons b t ih =>
    unfold insertDesc
    split
    · by_cases hc : a.2 = c <;> simp [List.filter_cons, hc]
    · rename_i hba
      push_neg at hba
      by_cases hc : a.2 = c
      · have hbc : ¬ b.2 = c := by rw [← hc]; exact ne_of_gt hba
        simp [List.filter_cons, hbc, ih, hc]
      · simp [List.filter_cons, ih, hc]

theorem filter_sortDesc (l : List (String × ℚ)) (c : ℚ) :
    (sortDesc l).filter (fun p => decide (p.2 = c)) =
      l.filter (fun p => decide (p.2 = c)) := by
  induction l with
  | nil => rfl
  | cons a t ih =>
    rw [show sortDesc (a :: t) = insertDesc a (sortDesc t) from rfl,
        filter_insertDesc]
    by_cases hc : a.2 = c <;> simp [List.filter_cons, hc, ih]

theorem mem_foldl_inter (k : String) (ws : List String)
    (f : String → Finset String) (init : Finset String) :
    k ∈ ws.foldl (fun acc w => acc ∩ f w) init ↔
      k ∈ init ∧ ∀ w ∈ ws, k ∈ f w := by
  induction ws generalizing init with
  | nil => simp
  | cons a t ih =>
    simp only [List.foldl_cons, ih, Finset.mem_inter, List.mem_cons]
    constructor
    · rintro ⟨⟨h1, h2⟩, h3⟩
      exact ⟨h1, fun w hw => by rcases hw with rfl | hw; exact h2; exact h3 w hw⟩
    · rintro ⟨h1, h2⟩
      exact ⟨⟨h1, h2 a (Or.inl rfl)⟩, fun w hw => h2 w (Or.inr hw)⟩


/-- C2 counterexample: the claim concludes that after recovery an
acknowledged `bulk_set` is applied in full or not at all.  That fails
end-to-end because `_load_data` overlays the snapshot over the replayed
WAL (the C1 recovery-order bug): on a fresh debug-mode store,
`set("a", "old")` saves the snapshot `{"a": "old"}`; a subsequent
`bulk_set([("a", "new"), ("b", "y")])` is acknowledged (returns `True`,
its single record durable in the WAL) while its snapshot save is skipped
by the debug draw.  Recovering the resulting disk state replays both
records and then overlays the stale snapshot: the result binds `"b"` to
its bulk value `"y"` but `"a"` back to `"old"` — the acknowledged bulk is
partially applied after recovery. -/
theorem c2_bulk_partial_after_recovery :
    (bulk_set (fun _ => []) true [("a", "new"), ("b", "y")]
      ((KV.set (fun _ => []) false "a" "old" (freshStore true)).2)).1 = true ∧
    (bulk_set (fun _ => []) true [("a", "new"), ("b", "y")]
      ((KV.set (fun _ => []) false "a" "old" (freshStore true)).2)).2.wal =
      [WalRecord.set "a" "old", WalRecord.bulk [("a", "new"), ("b", "y")]] ∧
    (bulk_set (fun _ => []) true [("a", "new"), ("b", "y")]
      ((KV.set (fun _ => []) false "a" "old" (freshStore true)).2)).2.snapshot =
      some [("a", "old")] ∧
    openData (some [("a", "old")])
      [WalLine.good (WalRecord.set "a" "old"),
       WalLine.good (WalRecord.bulk [("a", "new"), ("b", "y")])] =
      Except.ok [("a", "old"), ("b", "y")] ∧
    dlookup "a" [("a", "old"), ("b", "y")] = some "old" ∧
    dlookup "b" [("a", "old"), ("b", "y")] = some "y" ∧
    (some "old" : Option String) ≠ some "new" := by
  refine ⟨rfl, rfl, rfl, rfl, rfl, rfl, by decide⟩

/-- C2 as amended: `KVStore.bulk_set` (`server.py` lines 212-225) appends
exactly one WAL record, carrying all the pairs as an ordered list
(`_write_wal_bulk`, lines 82-94), and the replay of that single record
(`_recover_from_wal`, lines 112-114) applies every pair in order: after
replaying it over any map, every key of the list is bound to the value of
its last pair, and no other key changes — so WAL replay treats a bulk
all-or-nothing at record granularity.  Full recovery then overlays the
snapshot over the replayed map, so this guarantee is one of the replay
stage only (see the counterexample above). -/
theorem c2_bulk_set_one_record_all_pairs (E : String → List ℚ) (skip : Bool)
    (items : List (String × String)) (s : Store) (m : Dict String)
    (w : List WalRecord) :
    (bulk_set E skip items s).1 = true ∧
    (bulk_set E skip items s).2.wal = s.wal ++ [WalRecord.bulk items] ∧
    replayRecords m (w ++ [WalRecord.bulk items]) =
      applyPairs (replayRecords m w) items ∧
    (∀ k : String,
      dlookup k (applyPairs m items) =
        (match items.reverse.find? (fun p => p.1 == k) with
         | some p => some p.2
         | none => dlookup k m)) := by
  refine ⟨rfl, ?_, ?_, fun k => dlookup_applyPairs m items k⟩
  · show (save_data skip _).wal = _
    rw [save_data_wal, wal_bulk_apply_foldl]
  · simp [replayRecords, List.foldl_append, applyRecord]

/-- C7 counterexample: the claim says ties are broken lexicographically by
key.  Python's `list.sort` is stable, so ties keep the embedding dict's
insertion order.  Storing `"b"` then `"a"` with the same value gives equal
embeddings, hence equal similarity scores for any query, and
`search_similar` returns `"b"` before `"a"` — not lexicographic order. -/
theorem c7_tiebreak_counterexample :
    (search_similar (fun _ => [(1 : ℚ)]) "query" 2
      ((KV.set (fun _ => [(1 : ℚ)]) false "a" "x"
        ((KV.set (fun _ => [(1 : ℚ)]) false "b" "x" (freshStore false)).2)).2)).1
      = [("b", (1 : ℚ)), ("a", 1)] ∧
    ("b", (1 : ℚ)).2 = ("a", (1 : ℚ)).2 ∧
    ([("b", (1 : ℚ)), ("a", 1)] : List (String × ℚ)) ≠ [("a", 1), ("b", 1)] := by
  refine ⟨?_, rfl, by decide⟩
  norm_num +decide [search_similar, KV.set, freshStore, save_data, simList,
    cosine_similarity, sortDesc, insertDesc, pyTake, dinsert]

/-- C7 as amended: `search_similar` (`server.py` lines 243-255) with
`top_k ≥ 0` returns exactly `min(top_k, |keyset|)` pairs, sorted descending
by similarity score, and the sort's tie-break is stable with respect to the
embedding table's insertion order (for every score `c`, the entries scoring
`c` appear in the sorted list exactly in their table order) — not
lexicographic by key. -/
theorem c7_search_similar_sorted_stable (E : String → List ℚ) (q : String)
    (s : Store) (n : Int) (c : ℚ) (h : 0 ≤ n) :
    (search_similar E q n s).1.length = min n.toNat s.embeddings.length ∧
    (search_similar E q n s).1.Pairwise (fun x y => y.2 ≤ x.2) ∧
    (sortDesc (simList E q s)).filter (fun p => decide (p.2 = c)) =
      (simList E q s).filter (fun p => decide (p.2 = c)) := by
  refine ⟨?_, ?_, filter_sortDesc _ c⟩
  · show (pyTake n (sortDesc (simList E q s))).length = _
    unfold pyTake
    rw [if_pos h, List.length_take, length_sortDesc]
    simp [simList]
  · show (pyTake n (sortDesc (simList E q s))).Pairwise _
    unfold pyTake
    rw [if_pos h]
    exact List.Pairwise.sublist (List.take_sublist _ _) (pairwise_sortDesc _)

/-- C7 witness: the amended theorem evaluated on a two-key store with
`top_k = 1`. -/
theorem c7_search_similar_witness :
    (0 : Int) ≤ 1 ∧
    ((search_similar (fun _ => [(1 : ℚ)]) "q" 1
        ((KV.set (fun _ => [(1 : ℚ)]) false "a" "x"
          ((KV.set (fun _ => [(1 : ℚ)]) false "b" "x" (freshStore false)).2)).2)).1.length
        = min (1 : Int).toNat
            ((KV.set (fun _ => [(1 : ℚ)]) false "a" "x"
              ((KV.set (fun _ => [(1 : ℚ)]) false "b" "x" (freshStore false)).2)).2).embeddings.length ∧
     (search_similar (fun _ => [(1 : ℚ)]) "q" 1
        ((KV.set (fun _ => [(1 : ℚ)]) false "a" "x"
          ((KV.set (fun _ => [(1 : ℚ)]) false "b" "x" (freshStore false)).2)).2)).1.Pairwise
        (fun x y => y.2 ≤ x.2) ∧
     (sortDesc (simList (fun _ => [(1 : ℚ)]) "q"
        ((KV.set (fun _ => [(1 : ℚ)]) false "a" "x"
          ((KV.set (fun _ => [(1 : ℚ)]) false "b" "x" (freshStore false)).2)).2))).filter
          (fun p => decide (p.2 = (1 : ℚ))) =
       (simList (fun _ => [(1 : ℚ)]) "q"
        ((KV.set (fun _ => [(1 : ℚ)]) false "a" "x"
          ((KV.set (fun _ => [(1 : ℚ)]) false "b" "x" (freshStore false)).2)).2)).filter
          (fun p => decide (p.2 = (1 : ℚ)))) :=
  ⟨by decide,
   c7_search_similar_sorted_stable (fun _ => [(1 : ℚ)]) "q"
     ((KV.set (fun _ => [(1 : ℚ)]) false "a" "x"
       ((KV.set (fun _ => [(1 : ℚ)]) false "b" "x" (freshStore false)).2)).2)
     1 1 (by decide)⟩

/-- Evaluating `search_text` when the token list is nonempty. -/
theorem search_text_cons (q : String) (s : Store) (w : String)
    (ws : List String) (h : tokenize q = w :: ws) :
    (search_text q s).1 =
      ws.foldl (fun acc w2 => acc ∩ (dlookup w2 s.invIndex).getD ∅)
        ((dlookup w s.invIndex).getD ∅) := by
  unfold search_text
  rw [h]

/-- C8: `search_text` (`server.py` lines 227-241) lowercases and
whitespace-splits the query; with no tokens it returns the empty set, and
otherwise a key is in the result exactly when it is in the posting set of
every token (an absent token contributing the empty set, so any absent
token forces an empty result). -/
theorem c8_search_text_intersection (q : String) (s : Store) :
    (tokenize q = [] → (search_text q s).1 = ∅) ∧
    (∀ k : String, k ∈ (search_text q s).1 ↔
      (tokenize q ≠ [] ∧ ∀ w ∈ tokenize q, k ∈ (dlookup w s.invIndex).getD ∅)) ∧
    ((∃ w ∈ tokenize q, dlookup w s.invIndex = none) →
      (search_text q s).1 = ∅) := by
  have hmain : ∀ k : String, k ∈ (search_text q s).1 ↔
      (tokenize q ≠ [] ∧ ∀ w ∈ tokenize q, k ∈ (dlookup w s.invIndex).getD ∅) := by
    intro k
    cases h : tokenize q with
    | nil =>
      unfold search_text
      rw [h]
      simp
    | cons w ws =>
      rw [search_text_cons q s w ws h, mem_foldl_inter]
      simp [h]
  refine ⟨?_, hmain, ?_⟩
  · intro h
    cases hk : tokenize q with
    | nil =>
      unfold search_text
      rw [hk]
    | cons w ws => rw [h] at hk; cases hk
  · intro ⟨w, hw, hnone⟩
    rw [Finset.eq_empty_iff_forall_not_mem]
    intro k hk
    have h2 := ((hmain k).mp hk).2 w hw
    rw [hnone] at h2
    simp at h2


/-- C9 counterexample: the claim says `set` with an empty key and
`search_similar` with negative `top_k` are rejected with `BadArgument`
without state change.  `KVStore.set` (`server.py` lines 180-188) performs
no key validation: `set("", "v")` returns `True` and stores the binding
(the state changes), and `search_similar` (lines 243-255) accepts
`top_k = -1`, returning normally with Python's negative-slice semantics. -/
theorem c9_validation_counterexample :
    (KV.set (fun _ => []) false "" "v" (freshStore false)).1 = true ∧
    dlookup "" (KV.set (fun _ => []) false "" "v" (freshStore false)).2.data
      = some "v" ∧
    (KV.set (fun _ => []) false "" "v" (freshStore false)).2 ≠ freshStore false ∧
    (search_similar (fun _ => []) "q" (-1)
      ((KV.set (fun _ => []) false "b" "x" (freshStore false)).2)).1 = [] :=
  ⟨rfl, rfl, by decide, rfl⟩

/-- C9 as amended: the engine performs no argument validation.  `set`
succeeds for every key — in particular the empty key — returning `True`
and binding the key; and `search_similar` with a negative `top_k` returns
normally, the Python slice `similarities[:top_k]` dropping the last
`min(-top_k, length)` scored pairs. -/
theorem c9_no_argument_validation (E : String → List ℚ) (skip : Bool)
    (v q : String) (s : Store) (n : Int) (hn : n < 0) :
    (KV.set E skip "" v s).1 = true ∧
    dlookup "" (KV.set E skip "" v s).2.data = some v ∧
    (search_similar E q n s).1.length =
      s.embeddings.length - min s.embeddings.length (-n).toNat := by
  refine ⟨rfl, ?_, ?_⟩
  · show dlookup "" (save_data skip _).data = some v
    rw [save_data_data]
    simp [dlookup_dinsert]
  · show (pyTake n (sortDesc (simList E q s))).length = _
    unfold pyTake
    rw [if_neg (not_le.mpr hn), List.length_take, length_sortDesc]
    have : (simList E q s).length = s.embeddings.length := by simp [simList]
    rw [this]
    omega

/-- C9 witness: the amended theorem evaluated at the empty key, a one-key
store and `top_k = -1`. -/
theorem c9_no_argument_validation_witness :
    (-1 : Int) < 0 ∧
    ((KV.set (fun _ => []) false "" "v"
        ((KV.set (fun _ => []) false "b" "x" (freshStore false)).2)).1 = true ∧
     dlookup "" (KV.set (fun _ => []) false "" "v"
        ((KV.set (fun _ => []) false "b" "x" (freshStore false)).2)).2.data
        = some "v" ∧
     (search_similar (fun _ => []) "q" (-1)
        ((KV.set (fun _ => []) false "b" "x" (freshStore false)).2)).1.length =
       ((KV.set (fun _ => []) false "b" "x" (freshStore false)).2).embeddings.length -
         min ((KV.set (fun _ => []) false "b" "x" (freshStore false)).2).embeddings.length
           (-(-1 : Int)).toNat) :=
  ⟨by decide,
   c9_no_argument_validation (fun _ => []) false "v" "q"
     ((KV.set (fun _ => []) false "b" "x" (freshStore false)).2) (-1) (by decide)⟩

end KV
